import Mathlib

/-!
# GeneticSearch (ompl/geometric/GeneticSearch.h)

A shallow embedding of the inline part of `ompl::geometric::GeneticSearch`:
the `Individual` record, the `IndividualSort` comparator, the validity helper
`valid`, and the configuration setters and getters, followed by the properties
of the ranking order and of the configuration interface.

Conventions.
* `double` values are taken in a type `D`.  The algebraic results on the
  comparator assume a linear order on `D` (ordinary, non-NaN numbers); the
  results on sorted pools use `Double R`, the numbers of a linear order `R`
  together with NaN, which compares false with everything.
* `unsigned int` values are natural numbers below `2 ^ 32`; arithmetic on them
  is reduced modulo `2 ^ 32` explicitly.
* `base::State *` is a value of a type `S`.
* A `void` member function is a function from the engine state to the engine
  state; a `const` member function is a function from the engine state to its
  result.
-/

namespace ompl.geometric

/-! ## Collaborators declared outside this header -/

/-- Modelled from the spec: the Local Refiner (`HillClimbing`, declared in
`ompl/geometric/HillClimbing.h`, which is absent here).  The spec describes it
as "an opaque operation with a configurable step budget and a validity-check
toggle"; these two settings are its whole configuration. -/
structure HillClimbing where
  maxImproveSteps_ : Nat
  checkValidity_ : Bool

namespace HillClimbing

/-- Modelled from the spec: the refiner stores its configurable step budget. -/
def setMaxImproveSteps (steps : Nat) (hc : HillClimbing) : HillClimbing :=
  { hc with maxImproveSteps_ := steps }

/-- Modelled from the spec: the refiner reports its configurable step budget. -/
def getMaxImproveSteps (hc : HillClimbing) : Nat :=
  hc.maxImproveSteps_

/-- Modelled from the spec: the refiner stores its validity-check toggle. -/
def setValidityCheck (valid : Bool) (hc : HillClimbing) : HillClimbing :=
  { hc with checkValidity_ := valid }

/-- Modelled from the spec: the refiner reports its validity-check toggle. -/
def getValidityCheck (hc : HillClimbing) : Bool :=
  hc.checkValidity_

end HillClimbing

/-- Modelled from the spec: the validity capability of the space information
(`base::SpaceInformation`, declared in `ompl/base/SpaceInformation.h`, which is
absent here): "is this state valid?". -/
structure SpaceInformation (S : Type) where
  isValid : S → Bool

/-! ## The comparisons of `double` -/

/-- Values of the type `double` as far as comparison goes: NaN, or a number
taken in `R`. -/
inductive Double (R : Type) where
  | nan : Double R
  | num (r : R) : Double R

namespace Double

variable {R : Type}

/-- Operator `a < b` on `double`: the order of the numbers, and false as soon as
one operand is NaN. -/
def lt [LT R] : Double R → Double R → Prop
  | num x, num y => x < y
  | num _, nan => False
  | nan, num _ => False
  | nan, nan => False

/-- Operator `a <= b` on `double`: the order of the numbers, and false as soon
as one operand is NaN. -/
def le [LE R] : Double R → Double R → Prop
  | num x, num y => x ≤ y
  | num _, nan => False
  | nan, num _ => False
  | nan, nan => False

instance instLT [LT R] : LT (Double R) := ⟨lt⟩

instance instLE [LE R] : LE (Double R) := ⟨le⟩

instance decLt [LT R] [DecidableRel (fun (x y : R) => x < y)] :
    DecidableRel (fun (x y : Double R) => x < y)
  | num x, num y => (inferInstance : Decidable (x < y))
  | num _, nan => isFalse (fun h => h)
  | nan, num _ => isFalse (fun h => h)
  | nan, nan => isFalse (fun h => h)

instance decLe [LE R] [DecidableRel (fun (x y : R) => x ≤ y)] :
    DecidableRel (fun (x y : Double R) => x ≤ y)
  | num x, num y => (inferInstance : Decidable (x ≤ y))
  | num _, nan => isFalse (fun h => h)
  | nan, num _ => isFalse (fun h => h)
  | nan, nan => isFalse (fun h => h)

end Double

/-! ## The data model of `GeneticSearch` -/

/-- Record `GeneticSearch::Individual`: a candidate state with its cached
distance to the goal and its cached validity flag. -/
structure GeneticSearch.Individual (S D : Type) where
  state : S
  distance : D
  valid : Bool

/-- Comparator `GeneticSearch::IndividualSort::operator()`:
`if (a.valid == b.valid) return a.distance < b.distance; return a.valid;`. -/
def GeneticSearch.IndividualSort {S D : Type} [LT D] [DecidableRel (fun (x y : D) => x < y)]
    (a b : GeneticSearch.Individual S D) : Bool :=
  if a.valid == b.valid then decide (a.distance < b.distance) else a.valid

/-- Class `GeneticSearch`: its private data members, in declaration order.
`Smp` is the type of the state sampler handle. -/
structure GeneticSearch (S D Smp : Type) where
  hc_ : HillClimbing
  si_ : SpaceInformation S
  sampler_ : Smp
  pool_ : List (GeneticSearch.Individual S D)
  poolSize_ : Nat
  poolMutation_ : Nat
  poolRandom_ : Nat
  generations_ : Nat
  checkValidity_ : Bool
  tryImprove_ : Bool
  maxDistance_ : D

namespace GeneticSearch

variable {S D Smp : Type}

/-! ## Configuration setters and getters -/

/-- Member `setMaxImproveSteps`: `hc_.setMaxImproveSteps(maxSteps);`. -/
def setMaxImproveSteps (maxSteps : Nat) (g : GeneticSearch S D Smp) : GeneticSearch S D Smp :=
  { g with hc_ := g.hc_.setMaxImproveSteps maxSteps }

/-- Member `getMaxImproveSteps`: `return hc_.getMaxImproveSteps();`. -/
def getMaxImproveSteps (g : GeneticSearch S D Smp) : Nat :=
  g.hc_.getMaxImproveSteps

/-- Member `setValidityCheck`:
`checkValidity_ = valid; hc_.setValidityCheck(valid);`. -/
def setValidityCheck (valid : Bool) (g : GeneticSearch S D Smp) : GeneticSearch S D Smp :=
  let g1 := { g with checkValidity_ := valid }
  { g1 with hc_ := g1.hc_.setValidityCheck valid }

/-- Member `getValidityCheck`: `return checkValidity_;`. -/
def getValidityCheck (g : GeneticSearch S D Smp) : Bool :=
  g.checkValidity_

/-- Member `setTryImprove`: `tryImprove_ = flag;`. -/
def setTryImprove (flag : Bool) (g : GeneticSearch S D Smp) : GeneticSearch S D Smp :=
  { g with tryImprove_ := flag }

/-- Member `getTryImprove`: `return tryImprove_;`. -/
def getTryImprove (g : GeneticSearch S D Smp) : Bool :=
  g.tryImprove_

/-- Member `setPoolSize`: `poolSize_ = size;`. -/
def setPoolSize (size : Nat) (g : GeneticSearch S D Smp) : GeneticSearch S D Smp :=
  { g with poolSize_ := size }

/-- Member `getPoolSize`: `return poolSize_;`. -/
def getPoolSize (g : GeneticSearch S D Smp) : Nat :=
  g.poolSize_

/-- Member `setPoolMutationSize`: `poolMutation_ = size;`. -/
def setPoolMutationSize (size : Nat) (g : GeneticSearch S D Smp) : GeneticSearch S D Smp :=
  { g with poolMutation_ := size }

/-- Member `getPoolMutationSize`: `return poolMutation_;`. -/
def getPoolMutationSize (g : GeneticSearch S D Smp) : Nat :=
  g.poolMutation_

/-- Member `setPoolRandomSize`: `poolRandom_ = size;`. -/
def setPoolRandomSize (size : Nat) (g : GeneticSearch S D Smp) : GeneticSearch S D Smp :=
  { g with poolRandom_ := size }

/-- Member `getPoolRandomSize`: `return poolRandom_;`. -/
def getPoolRandomSize (g : GeneticSearch S D Smp) : Nat :=
  g.poolRandom_

/-- Member `setRange`: `maxDistance_ = distance;`. -/
def setRange (distance : D) (g : GeneticSearch S D Smp) : GeneticSearch S D Smp :=
  { g with maxDistance_ := distance }

/-- Member `getRange`: `return maxDistance_;`. -/
def getRange (g : GeneticSearch S D Smp) : D :=
  g.maxDistance_

/-- Member `valid`: `return checkValidity_ ? si_->isValid(state) : true;`. -/
def valid (g : GeneticSearch S D Smp) (state : S) : Bool :=
  if g.checkValidity_ then g.si_.isValid state else true

/-! ## Ranking of the pool -/

/-- Number of values of the 32-bit type `unsigned int`. -/
def uintRange : Nat := 2 ^ 32

/-- Subtraction `a - b` of two `unsigned int` values: the difference reduced
modulo `2 ^ 32`. -/
def uintSub (a b : Nat) : Nat :=
  (a % uintRange + uintRange - b % uintRange) % uintRange

/-- Modelled from the spec: the size of the retained segment,
`poolSize - poolMutation - poolRandom` (§3, §4.4), evaluated left to right on
the `unsigned int` fields `poolSize_`, `poolMutation_`, `poolRandom_`.  The body
of `solve` (`GeneticSearch.cpp`), which forms the segments, is absent here. -/
def retainedCount (g : GeneticSearch S D Smp) : Nat :=
  uintSub (uintSub g.poolSize_ g.poolMutation_) g.poolRandom_

/-! ## Configuration errors -/

/-- Modelled from the spec: the configuration-error condition of §7,
`poolMutation + poolRandom > poolSize`, or `poolSize == 0`.  The header contains
no test of this condition. -/
def specConfigurationError (g : GeneticSearch S D Smp) : Bool :=
  decide (g.poolMutation_ + g.poolRandom_ > g.poolSize_) || g.poolSize_ == 0

/-- The error a call could report for an invalid pool configuration. -/
inductive ConfigurationError where
  | invalidPoolConfiguration

/-- A call of the `void` member `setPoolSize`, with the way it ends made
explicit.  The body is the single assignment `poolSize_ = size;`: there is no
test, no `throw` and no log message, so the call returns normally. -/
def callSetPoolSize (size : Nat) (g : GeneticSearch S D Smp) :
    Except ConfigurationError (GeneticSearch S D Smp) :=
  Except.ok (setPoolSize size g)

/-- A call of the `void` member `setPoolMutationSize`, with the way it ends made
explicit.  The body is the single assignment `poolMutation_ = size;`. -/
def callSetPoolMutationSize (size : Nat) (g : GeneticSearch S D Smp) :
    Except ConfigurationError (GeneticSearch S D Smp) :=
  Except.ok (setPoolMutationSize size g)

/-- A call of the `void` member `setPoolRandomSize`, with the way it ends made
explicit.  The body is the single assignment `poolRandom_ = size;`. -/
def callSetPoolRandomSize (size : Nat) (g : GeneticSearch S D Smp) :
    Except ConfigurationError (GeneticSearch S D Smp) :=
  Except.ok (setPoolRandomSize size g)

/-! ## Concrete values used to evaluate the definitions -/

/-- A valid candidate at distance 10 from the goal. -/
def farValid : Individual Nat Int := { state := 1, distance := 10, valid := true }

/-- An invalid candidate at distance 1 from the goal. -/
def nearInvalid : Individual Nat Int := { state := 2, distance := 1, valid := false }

/-- A valid candidate at distance 3 from the goal. -/
def nearValid : Individual Nat Int := { state := 3, distance := 3, valid := true }

/-- A pool in ranked order: valid candidates by distance, then the invalid one. -/
def rankedPool : List (Individual Nat Int) := [nearValid, farValid, nearInvalid]

/-- An engine state: states are numbers, the even ones are valid. -/
def sampleEngine : GeneticSearch Nat Int Unit :=
  { hc_ := { maxImproveSteps_ := 3, checkValidity_ := true }
    si_ := { isValid := fun s => s % 2 == 0 }
    sampler_ := ()
    pool_ := rankedPool
    poolSize_ := 100
    poolMutation_ := 20
    poolRandom_ := 30
    generations_ := 0
    checkValidity_ := true
    tryImprove_ := false
    maxDistance_ := 0 }

/-- An engine state whose mutation quota is the largest `unsigned int`:
`poolSize_ = 10`, `poolMutation_ = 4294967295`, `poolRandom_ = 5`. -/
def overfullEngine : GeneticSearch Nat Int Unit :=
  setPoolRandomSize 5 (setPoolMutationSize 4294967295 (setPoolSize 10 sampleEngine))

/-! ## Properties of `IndividualSort` -/

section Ranking

variable [LinearOrder D]

/-- When `IndividualSort(a, b)` is true, read off the two branches of the body. -/
theorem individualSort_eq_true_iff (a b : Individual S D) :
    IndividualSort a b = true ↔
      (a.valid ≠ b.valid ∧ a.valid = true) ∨ (a.valid = b.valid ∧ a.distance < b.distance) := by
  unfold IndividualSort
  by_cases h : a.valid = b.valid
  · simp [h]
  · have hb : (a.valid == b.valid) = false := by simpa using h
    simp [hb, h]

/-- When `IndividualSort(a, b)` is false, read off the two branches of the body. -/
theorem individualSort_eq_false_iff (a b : Individual S D) :
    IndividualSort a b = false ↔
      (a.valid ≠ b.valid ∧ a.valid = false) ∨ (a.valid = b.valid ∧ b.distance ≤ a.distance) := by
  unfold IndividualSort
  by_cases h : a.valid = b.valid
  · simp [h]
  · have hb : (a.valid == b.valid) = false := by simpa using h
    simp [hb, h]

/-- "Not ranked after" is transitive: if `b` does not rank before `a` and `c`
does not rank before `b`, then `c` does not rank before `a`. -/
theorem individualSort_false_trans (a b c : Individual S D)
    (hab : IndividualSort b a = false) (hbc : IndividualSort c b = false) :
    IndividualSort c a = false := by
  rw [individualSort_eq_false_iff] at hab hbc ⊢
  cases ha : a.valid <;> cases hb : b.valid <;> cases hc : c.valid <;>
    simp [ha, hb, hc] at hab hbc ⊢
  · exact le_trans hab hbc
  · exact le_trans hab hbc

/-- C1. `IndividualSort(a, b)` is true exactly when either the validity flags
differ and `a` is the valid one, or the flags are equal and
`a.distance < b.distance`; replacing the `state` fields of `a` and `b` by any
other states leaves the result unchanged. -/
theorem individualSort_characterisation (a b : Individual S D) :
    (IndividualSort a b = true ↔
      (a.valid ≠ b.valid ∧ a.valid = true) ∨
        (a.valid = b.valid ∧ a.distance < b.distance)) ∧
    (∀ s t : S,
      IndividualSort { a with state := s } { b with state := t } = IndividualSort a b) :=
  ⟨individualSort_eq_true_iff a b, fun _ _ => rfl⟩

/-- C3. `IndividualSort` is a strict weak ordering over a linearly ordered
distance type: irreflexive, asymmetric, transitive, and with a transitive
incomparability relation. -/
theorem individualSort_strict_weak_order :
    (∀ a : Individual S D, IndividualSort a a = false) ∧
    (∀ a b : Individual S D, IndividualSort a b = true → IndividualSort b a = false) ∧
    (∀ a b c : Individual S D,
      IndividualSort a b = true → IndividualSort b c = true → IndividualSort a c = true) ∧
    (∀ a b c : Individual S D,
      (IndividualSort a b = false ∧ IndividualSort b a = false) →
      (IndividualSort b c = false ∧ IndividualSort c b = false) →
      (IndividualSort a c = false ∧ IndividualSort c a = false)) := by
  refine ⟨?_, ?_, ?_, ?_⟩
  · intro a
    simp [IndividualSort]
  · intro a b hab
    rw [individualSort_eq_true_iff] at hab
    rw [individualSort_eq_false_iff]
    rcases hab with ⟨hne, hv⟩ | ⟨he, hlt⟩
    · left
      refine ⟨fun h => hne h.symm, ?_⟩
      cases hbv : b.valid
      · rfl
      · exact absurd (hv.trans hbv.symm) hne
    · right
      exact ⟨he.symm, le_of_lt hlt⟩
  · intro a b c hab hbc
    rw [individualSort_eq_true_iff] at hab hbc ⊢
    cases ha : a.valid <;> cases hb : b.valid <;> cases hc : c.valid <;>
      simp [ha, hb, hc] at hab hbc ⊢
    · exact lt_trans hab hbc
    · exact lt_trans hab hbc
  · intro a b c hab hbc
    exact ⟨individualSort_false_trans c b a hbc.1 hab.1,
      individualSort_false_trans a b c hab.2 hbc.2⟩

end Ranking

/-- Witness for C3 on three concrete candidates. -/
theorem individualSort_strict_weak_order_witness :
    IndividualSort nearValid nearValid = false ∧
    IndividualSort farValid nearValid = false ∧
    IndividualSort nearValid nearInvalid = true :=
  ⟨individualSort_strict_weak_order.1 nearValid,
    individualSort_strict_weak_order.2.1 nearValid farValid (by decide),
    individualSort_strict_weak_order.2.2.1 nearValid farValid nearInvalid
      (by decide) (by decide)⟩

/-! ## The front of a sorted pool -/

section Front

variable {R : Type} [LinearOrder R]

end Front

/-- C5. With validity checking disabled `valid` answers true for every state,
whatever the oracle `si_->isValid` answers; with validity checking enabled it
answers exactly what the oracle answers. -/
theorem valid_follows_validity_check (g : GeneticSearch S D Smp) (state : S) :
    valid (setValidityCheck false g) state = true ∧
    valid (setValidityCheck true g) state = g.si_.isValid state ∧
    (∀ si : SpaceInformation S,
      valid (setValidityCheck false { g with si_ := si }) state = true ∧
      valid (setValidityCheck true { g with si_ := si }) state = si.isValid state) :=
  ⟨rfl, rfl, fun _ => ⟨rfl, rfl⟩⟩

/-- C6. Each setter followed by its getter returns the argument unchanged, for
every engine state and every argument, also for pool sizes that break
`poolMutation + poolRandom ≤ poolSize`. -/
theorem setter_getter_round_trip (g : GeneticSearch S D Smp) :
    (∀ v : Nat, getPoolSize (setPoolSize v g) = v) ∧
    (∀ v : Nat, getPoolMutationSize (setPoolMutationSize v g) = v) ∧
    (∀ v : Nat, getPoolRandomSize (setPoolRandomSize v g) = v) ∧
    (∀ v : D, getRange (setRange v g) = v) ∧
    (∀ v : Bool, getTryImprove (setTryImprove v g) = v) ∧
    (∀ v : Bool, getValidityCheck (setValidityCheck v g) = v) :=
  ⟨fun _ => rfl, fun _ => rfl, fun _ => rfl, fun _ => rfl, fun _ => rfl, fun _ => rfl⟩

/-- C7, as stated, fails: `setPoolSize(0)`, `setPoolMutationSize(200)` and
`setPoolRandomSize(200)` on an engine with pool size 100, mutation quota 20 and
resampling quota 30 each leave a configuration error behind, and each call
returns normally with the argument stored. -/
theorem setters_report_nothing_counterexample :
    (specConfigurationError (setPoolSize 0 sampleEngine) = true ∧
      (∀ e, callSetPoolSize 0 sampleEngine ≠ Except.error e) ∧
      ∃ g, callSetPoolSize 0 sampleEngine = Except.ok g ∧ getPoolSize g = 0) ∧
    (specConfigurationError (setPoolMutationSize 200 sampleEngine) = true ∧
      (∀ e, callSetPoolMutationSize 200 sampleEngine ≠ Except.error e) ∧
      ∃ g, callSetPoolMutationSize 200 sampleEngine = Except.ok g ∧
        getPoolMutationSize g = 200) ∧
    (specConfigurationError (setPoolRandomSize 200 sampleEngine) = true ∧
      (∀ e, callSetPoolRandomSize 200 sampleEngine ≠ Except.error e) ∧
      ∃ g, callSetPoolRandomSize 200 sampleEngine = Except.ok g ∧
        getPoolRandomSize g = 200) := by
  refine ⟨⟨by decide, ?_, _, rfl, rfl⟩, ⟨by decide, ?_, _, rfl, rfl⟩,
    ⟨by decide, ?_, _, rfl, rfl⟩⟩
  · intro e h
    cases h
  · intro e h
    cases h
  · intro e h
    cases h

/-- C7, amended. The three pool-size setters perform no validation: for every
engine state and every argument the call returns normally, reports no error and
stores the argument unchanged, whether or not the resulting configuration has
`poolMutation + poolRandom > poolSize` or `poolSize == 0`. -/
theorem setters_accept_every_argument (g : GeneticSearch S D Smp) (size : Nat) :
    ((∀ e, callSetPoolSize size g ≠ Except.error e) ∧
      ∃ h, callSetPoolSize size g = Except.ok h ∧ getPoolSize h = size ∧
        specConfigurationError h =
          (decide (g.poolMutation_ + g.poolRandom_ > size) || size == 0)) ∧
    ((∀ e, callSetPoolMutationSize size g ≠ Except.error e) ∧
      ∃ h, callSetPoolMutationSize size g = Except.ok h ∧ getPoolMutationSize h = size ∧
        specConfigurationError h =
          (decide (size + g.poolRandom_ > g.poolSize_) || g.poolSize_ == 0)) ∧
    ((∀ e, callSetPoolRandomSize size g ≠ Except.error e) ∧
      ∃ h, callSetPoolRandomSize size g = Except.ok h ∧ getPoolRandomSize h = size ∧
        specConfigurationError h =
          (decide (g.poolMutation_ + size > g.poolSize_) || g.poolSize_ == 0)) := by
  refine ⟨⟨?_, _, rfl, rfl, rfl⟩, ⟨?_, _, rfl, rfl, rfl⟩, ⟨?_, _, rfl, rfl, rfl⟩⟩
  · intro e h
    cases h
  · intro e h
    cases h
  · intro e h
    cases h

/-! ## Pool partition arithmetic -/

/-- C8, as stated, fails: with `poolSize = 10`, `poolMutation = 4294967295` and
`poolRandom = 5` (all `unsigned int` values) the precondition is violated, yet
`poolSize - poolMutation - poolRandom` wraps to 6, which is not larger than
`poolSize`. -/
theorem retainedCount_wrap_counterexample :
    overfullEngine.poolSize_ = 10 ∧
    overfullEngine.poolMutation_ = 4294967295 ∧
    overfullEngine.poolRandom_ = 5 ∧
    overfullEngine.poolMutation_ < 2 ^ 32 ∧
    overfullEngine.poolMutation_ + overfullEngine.poolRandom_ > overfullEngine.poolSize_ ∧
    retainedCount overfullEngine = 6 ∧
    ¬ (retainedCount overfullEngine > overfullEngine.poolSize_) := by
  refine ⟨rfl, rfl, rfl, ?_, ?_, ?_, ?_⟩
  · norm_num [overfullEngine, setPoolRandomSize, setPoolMutationSize, setPoolSize]
  · norm_num [overfullEngine, setPoolRandomSize, setPoolMutationSize, setPoolSize]
  · norm_num [retainedCount, uintSub, uintRange, overfullEngine, setPoolRandomSize,
      setPoolMutationSize, setPoolSize]
  · norm_num [retainedCount, uintSub, uintRange, overfullEngine, setPoolRandomSize,
      setPoolMutationSize, setPoolSize]

/-- C8, amended. For `unsigned int` pool sizes: when
`poolMutation + poolRandom ≤ poolSize` (sum taken without overflow) neither
subtraction underflows, the retained count is the true difference, and
retained + poolMutation + poolRandom = poolSize; when the precondition is
violated the retained count wraps modulo `2 ^ 32`, so that
retained + poolMutation + poolRandom differs from poolSize, and the wrapped value
is larger than poolSize exactly when `poolMutation + poolRandom < 2 ^ 32` or
`poolMutation + poolRandom > poolSize + 2 ^ 32`. -/
theorem retainedCount_partition (g : GeneticSearch S D Smp)
    (hp : g.poolSize_ < 2 ^ 32) (hm : g.poolMutation_ < 2 ^ 32)
    (hr : g.poolRandom_ < 2 ^ 32) :
    (g.poolMutation_ + g.poolRandom_ ≤ g.poolSize_ →
      g.poolMutation_ ≤ g.poolSize_ ∧
      g.poolRandom_ ≤ uintSub g.poolSize_ g.poolMutation_ ∧
      uintSub g.poolSize_ g.poolMutation_ = g.poolSize_ - g.poolMutation_ ∧
      retainedCount g = g.poolSize_ - g.poolMutation_ - g.poolRandom_ ∧
      retainedCount g + g.poolMutation_ + g.poolRandom_ = g.poolSize_) ∧
    (g.poolMutation_ + g.poolRandom_ > g.poolSize_ →
      retainedCount g < 2 ^ 32 ∧
      retainedCount g + g.poolMutation_ + g.poolRandom_ ≠ g.poolSize_ ∧
      (retainedCount g + g.poolMutation_ + g.poolRandom_ = g.poolSize_ + 2 ^ 32 ∨
        retainedCount g + g.poolMutation_ + g.poolRandom_ = g.poolSize_ + 2 ^ 33) ∧
      (retainedCount g > g.poolSize_ ↔
        (g.poolMutation_ + g.poolRandom_ < 2 ^ 32 ∨
          g.poolMutation_ + g.poolRandom_ > g.poolSize_ + 2 ^ 32))) := by
  simp only [retainedCount, uintSub, uintRange]
  constructor
  · intro h
    omega
  · intro h
    omega

/-- Witness for C8 (amended): pool size 100 with quotas 20 and 30 retains 50;
pool size 10 with quotas 20 and 30 wraps to `2 ^ 32 - 40`. -/
theorem retainedCount_partition_witness :
    retainedCount sampleEngine = 50 ∧
    retainedCount sampleEngine + 20 + 30 = 100 ∧
    retainedCount (setPoolSize 10 sampleEngine) > 10 :=
  ⟨((retainedCount_partition sampleEngine (by decide) (by decide) (by decide)).1
      (by decide)).2.2.2.1,
    ((retainedCount_partition sampleEngine (by decide) (by decide) (by decide)).1
      (by decide)).2.2.2.2,
    ((retainedCount_partition (setPoolSize 10 sampleEngine) (by decide) (by decide)
      (by decide)).2 (by decide)).2.2.2.mpr (Or.inl (by decide))⟩

/-! ## The validity-check flag of the engine and of the refiner -/

/-- C9. After `setValidityCheck(v)` the engine flag (as `getValidityCheck`
returns it) and the refiner flag are both `v`; when the two flags are equal,
each of `setMaxImproveSteps`, `setTryImprove`, `setPoolSize`,
`setPoolMutationSize`, `setPoolRandomSize` and `setRange` keeps them equal. -/
theorem validityCheck_in_sync (g : GeneticSearch S D Smp) :
    (∀ v : Bool,
      getValidityCheck (setValidityCheck v g) = v ∧
      (setValidityCheck v g).checkValidity_ = v ∧
      (setValidityCheck v g).hc_.getValidityCheck = v) ∧
    (g.checkValidity_ = g.hc_.getValidityCheck →
      (∀ n : Nat, (setMaxImproveSteps n g).checkValidity_ =
        (setMaxImproveSteps n g).hc_.getValidityCheck) ∧
      (∀ b : Bool, (setTryImprove b g).checkValidity_ =
        (setTryImprove b g).hc_.getValidityCheck) ∧
      (∀ n : Nat, (setPoolSize n g).checkValidity_ =
        (setPoolSize n g).hc_.getValidityCheck) ∧
      (∀ n : Nat, (setPoolMutationSize n g).checkValidity_ =
        (setPoolMutationSize n g).hc_.getValidityCheck) ∧
      (∀ n : Nat, (setPoolRandomSize n g).checkValidity_ =
        (setPoolRandomSize n g).hc_.getValidityCheck) ∧
      (∀ d : D, (setRange d g).checkValidity_ =
        (setRange d g).hc_.getValidityCheck)) :=
  ⟨fun _ => ⟨rfl, rfl, rfl⟩,
    fun h => ⟨fun _ => h, fun _ => h, fun _ => h, fun _ => h, fun _ => h, fun _ => h⟩⟩

/-- Witness for C9: the sample engine has both flags set, and they stay equal
after `setMaxImproveSteps(7)`; after `setValidityCheck(false)` both are clear. -/
theorem validityCheck_in_sync_witness :
    sampleEngine.checkValidity_ = sampleEngine.hc_.getValidityCheck ∧
    (setMaxImproveSteps 7 sampleEngine).checkValidity_ =
      (setMaxImproveSteps 7 sampleEngine).hc_.getValidityCheck ∧
    (setValidityCheck false sampleEngine).hc_.getValidityCheck = false :=
  ⟨rfl, ((validityCheck_in_sync sampleEngine).2 rfl).1 7,
    ((validityCheck_in_sync sampleEngine).1 false).2.2⟩

/-! ## Frame of the configuration setters -/

/-- C10. Each of `setPoolSize`, `setPoolMutationSize`, `setPoolRandomSize`,
`setRange` and `setTryImprove` stores its argument in its own field and leaves
every other field as it was: the refiner, the space information, the sampler,
the pool (hence its length and every Individual in it), the other
configuration fields and the generation counter.  In particular `setPoolSize`
does not resize the pool.  The getters are `const` members: each is a function
of the engine state that reads one field and produces no new state. -/
theorem setters_frame (g : GeneticSearch S D Smp) :
    (∀ v : Nat,
      (setPoolSize v g).hc_ = g.hc_ ∧
      (setPoolSize v g).si_ = g.si_ ∧
      (setPoolSize v g).sampler_ = g.sampler_ ∧
      (setPoolSize v g).pool_ = g.pool_ ∧
      (setPoolSize v g).pool_.length = g.pool_.length ∧
      (setPoolSize v g).poolSize_ = v ∧
      (setPoolSize v g).poolMutation_ = g.poolMutation_ ∧
      (setPoolSize v g).poolRandom_ = g.poolRandom_ ∧
      (setPoolSize v g).generations_ = g.generations_ ∧
      (setPoolSize v g).checkValidity_ = g.checkValidity_ ∧
      (setPoolSize v g).tryImprove_ = g.tryImprove_ ∧
      (setPoolSize v g).maxDistance_ = g.maxDistance_) ∧
    (∀ v : Nat,
      (setPoolMutationSize v g).hc_ = g.hc_ ∧
      (setPoolMutationSize v g).si_ = g.si_ ∧
      (setPoolMutationSize v g).sampler_ = g.sampler_ ∧
      (setPoolMutationSize v g).pool_ = g.pool_ ∧
      (setPoolMutationSize v g).pool_.length = g.pool_.length ∧
      (setPoolMutationSize v g).poolSize_ = g.poolSize_ ∧
      (setPoolMutationSize v g).poolMutation_ = v ∧
      (setPoolMutationSize v g).poolRandom_ = g.poolRandom_ ∧
      (setPoolMutationSize v g).generations_ = g.generations_ ∧
      (setPoolMutationSize v g).checkValidity_ = g.checkValidity_ ∧
      (setPoolMutationSize v g).tryImprove_ = g.tryImprove_ ∧
      (setPoolMutationSize v g).maxDistance_ = g.maxDistance_) ∧
    (∀ v : Nat,
      (setPoolRandomSize v g).hc_ = g.hc_ ∧
      (setPoolRandomSize v g).si_ = g.si_ ∧
      (setPoolRandomSize v g).sampler_ = g.sampler_ ∧
      (setPoolRandomSize v g).pool_ = g.pool_ ∧
      (setPoolRandomSize v g).pool_.length = g.pool_.length ∧
      (setPoolRandomSize v g).poolSize_ = g.poolSize_ ∧
      (setPoolRandomSize v g).poolMutation_ = g.poolMutation_ ∧
      (setPoolRandomSize v g).poolRandom_ = v ∧
      (setPoolRandomSize v g).generations_ = g.generations_ ∧
      (setPoolRandomSize v g).checkValidity_ = g.checkValidity_ ∧
      (setPoolRandomSize v g).tryImprove_ = g.tryImprove_ ∧
      (setPoolRandomSize v g).maxDistance_ = g.maxDistance_) ∧
    (∀ v : D,
      (setRange v g).hc_ = g.hc_ ∧
      (setRange v g).si_ = g.si_ ∧
      (setRange v g).sampler_ = g.sampler_ ∧
      (setRange v g).pool_ = g.pool_ ∧
      (setRange v g).pool_.length = g.pool_.length ∧
      (setRange v g).poolSize_ = g.poolSize_ ∧
      (setRange v g).poolMutation_ = g.poolMutation_ ∧
      (setRange v g).poolRandom_ = g.poolRandom_ ∧
      (setRange v g).generations_ = g.generations_ ∧
      (setRange v g).checkValidity_ = g.checkValidity_ ∧
      (setRange v g).tryImprove_ = g.tryImprove_ ∧
      (setRange v g).maxDistance_ = v) ∧
    (∀ v : Bool,
      (setTryImprove v g).hc_ = g.hc_ ∧
      (setTryImprove v g).si_ = g.si_ ∧
      (setTryImprove v g).sampler_ = g.sampler_ ∧
      (setTryImprove v g).pool_ = g.pool_ ∧
      (setTryImprove v g).pool_.length = g.pool_.length ∧
      (setTryImprove v g).poolSize_ = g.poolSize_ ∧
      (setTryImprove v g).poolMutation_ = g.poolMutation_ ∧
      (setTryImprove v g).poolRandom_ = g.poolRandom_ ∧
      (setTryImprove v g).generations_ = g.generations_ ∧
      (setTryImprove v g).checkValidity_ = g.checkValidity_ ∧
      (setTryImprove v g).tryImprove_ = v ∧
      (setTryImprove v g).maxDistance_ = g.maxDistance_) ∧
    (getPoolSize g = g.poolSize_ ∧
      getPoolMutationSize g = g.poolMutation_ ∧
      getPoolRandomSize g = g.poolRandom_ ∧
      getRange g = g.maxDistance_ ∧
      getTryImprove g = g.tryImprove_ ∧
      getValidityCheck g = g.checkValidity_ ∧
      getMaxImproveSteps g = g.hc_.maxImproveSteps_) :=
  ⟨fun _ => ⟨rfl, rfl, rfl, rfl, rfl, rfl, rfl, rfl, rfl, rfl, rfl, rfl⟩,
    fun _ => ⟨rfl, rfl, rfl, rfl, rfl, rfl, rfl, rfl, rfl, rfl, rfl, rfl⟩,
    fun _ => ⟨rfl, rfl, rfl, rfl, rfl, rfl, rfl, rfl, rfl, rfl, rfl, rfl⟩,
    fun _ => ⟨rfl, rfl, rfl, rfl, rfl, rfl, rfl, rfl, rfl, rfl, rfl, rfl⟩,
    fun _ => ⟨rfl, rfl, rfl, rfl, rfl, rfl, rfl, rfl, rfl, rfl, rfl, rfl⟩,
    ⟨rfl, rfl, rfl, rfl, rfl, rfl, rfl⟩⟩

end GeneticSearch

end ompl.geometric
